import Mathlib

/-!
Shallow embedding of the Leftys backend core (FastAPI + MongoDB service):
inventory lifecycle (src/backend/app/repositories.py, InventoryRepository),
impact estimation and posting translation (src/backend/app/utils.py),
the request handlers that compose them (src/backend/app/main.py), and the
Auth0 token verifier (src/backend/app/auth.py).

Conventions of the embedding:
- Mongo ObjectId values are modelled as natural numbers.
- datetime values are modelled as rational timestamps (seconds); the
  current wall-clock time is passed explicitly where the source calls
  datetime.utcnow().
- Python float quantities are modelled as rationals, with the source
  decimal constants carried exactly.
- geographic coordinates are modelled as reals, since the haversine
  computation uses transcendental functions.
-/

/-- Mongo ObjectId, modelled as a natural number. -/
abbrev ObjectId := Nat

/-- datetime value, modelled as a rational timestamp in seconds. -/
abbrev Timestamp := ℚ

/-- Unit literal of models.py: Unit = Literal["g", "kg", "oz", "lb", "ml", "L", "pieces"]. -/
inductive BaseUnit where
  | g | kg | oz | lb | ml | L | pieces
deriving DecidableEq, Repr

/-- Status literal of InventoryItemDB: Literal["active", "consumed", "expired", "discarded"]. -/
inductive ItemStatus where
  | active | consumed | expired | discarded
deriving DecidableEq, Repr

/-- Reason literal of ConsumeItemPayload (main.py): Literal["used", "discarded"]. -/
inductive ConsumeReason where
  | used | discarded
deriving DecidableEq, Repr

/-- InventoryItemDB of models.py: quantity, base unit, remaining quantity,
status, terminal timestamps, bookkeeping timestamps. -/
structure InventoryItemDB where
  id : ObjectId
  owner_id : ObjectId
  name : String
  quantity : ℚ
  base_unit : BaseUnit
  display_unit : Option String := none
  units_per_display : Option ℚ := none
  input_date : Timestamp
  est_expiry_date : Timestamp
  remaining_quantity : ℚ
  status : ItemStatus := .active
  cost_estimate : Option ℚ := none
  used_at : Option Timestamp := none
  discarded_at : Option Timestamp := none
  created_at : Timestamp
  updated_at : Timestamp
deriving DecidableEq, Repr

/-- InventoryRepository.create_item (repositories.py): on insert, the
remaining quantity is initialised to the total quantity. -/
def create_item (item : InventoryItemDB) : InventoryItemDB :=
  { item with remaining_quantity := item.quantity }

/-- InventoryRepository.update_quantity (repositories.py): a direct quantity
set overwrites quantity and remaining_quantity together and refreshes
updated_at; status is not revisited. -/
def update_quantity (item : InventoryItemDB) (new_quantity : ℚ) (now : Timestamp) :
    InventoryItemDB :=
  { item with
      quantity := new_quantity
      remaining_quantity := new_quantity
      updated_at := now }

/-- InventoryRepository.consume_item (repositories.py, lines 249-283), the
state transformation applied to the fetched item. new_remaining is
max(0, remaining_quantity - quantity_delta); quantity is also overwritten to
match remaining; when new_remaining <= 0 the status and the terminal
timestamp for the given reason are set. The surrounding Mongo fetch/update
plumbing (item-not-found returns None) is orthogonal to the transformation
and is not modelled here. -/
def consume_item (item : InventoryItemDB) (quantity_delta : ℚ)
    (reason : ConsumeReason) (now : Timestamp) : InventoryItemDB :=
  let new_remaining := max 0 (item.remaining_quantity - quantity_delta)
  let base :=
    { item with
        remaining_quantity := new_remaining
        quantity := new_remaining
        updated_at := now }
  if new_remaining ≤ 0 then
    match reason with
    | .used => { base with status := .consumed, used_at := some now }
    | .discarded => { base with status := .discarded, discarded_at := some now }
  else
    base

/-- Sequence of consume operations applied in order: each element carries
the quantity_delta, the reason, and the wall-clock time of the call. -/
def consume_seq (item : InventoryItemDB)
    (ops : List (ℚ × ConsumeReason × Timestamp)) : InventoryItemDB :=
  ops.foldl (fun it op => consume_item it op.1 op.2.1 op.2.2) item

/-- Python substring containment (the `in` operator on str): s contains t.
For nonempty t, splitting on t yields more than one part exactly when t
occurs in s; the source only tests nonempty literals. -/
def str_contains (s t : String) : Bool :=
  (s.splitOn t).length > 1

/-- Result dictionary of calculate_food_waste_impact (utils.py). -/
structure ImpactEstimate where
  food_saved_lbs : ℚ
  co2_prevented_kg : ℚ
  money_saved_usd : ℚ
deriving DecidableEq, Repr

/-- calculate_food_waste_impact (utils.py, lines 115-152): unit-based weight
estimate (kg to lb times 2.20462, g times 0.00220462, oz divided by 16,
per-keyword heuristics for pieces; ml and L fall through to weight 0), then
CO2 = weight * 0.453592 * 3.3 and money = weight * 3.0, all zero unless the
reason is used. quantity_delta defaults to None, in which case item.quantity
is used. -/
def calculate_food_waste_impact (item : InventoryItemDB) (reason : ConsumeReason)
    (quantity_delta : Option ℚ := none) : ImpactEstimate :=
  let quantity_to_calculate := quantity_delta.getD item.quantity
  let weight_lb : ℚ :=
    match item.base_unit with
    | .lb => quantity_to_calculate
    | .kg => quantity_to_calculate * (220462 / 100000)
    | .g => quantity_to_calculate * (220462 / 100000000)
    | .oz => quantity_to_calculate / 16
    | .pieces =>
        if str_contains item.name.toLower "yogurt" then
          quantity_to_calculate * (35 / 100)
        else if str_contains item.name.toLower "avocado" then
          quantity_to_calculate * (4 / 10)
        else if str_contains item.name.toLower "spinach" then
          quantity_to_calculate * (3 / 10)
        else
          quantity_to_calculate * (25 / 100)
    | .ml => 0
    | .L => 0
  let co2_prevented_kg : ℚ :=
    if reason = .used then weight_lb * (453592 / 1000000) * (33 / 10) else 0
  let money_saved : ℚ := if reason = .used then weight_lb * 3 else 0
  { food_saved_lbs := if reason = .used then weight_lb else 0
    co2_prevented_kg := co2_prevented_kg
    money_saved_usd := money_saved }

/-- UserMetrics of models.py: cumulative per-owner counters. -/
structure UserMetrics where
  id : ObjectId
  owner_id : ObjectId
  co2_emissions_prevented_kg : ℚ := 0
  food_saved_lbs : ℚ := 0
  money_saved_usd : ℚ := 0
  meals_created : ℤ := 0
  items_rescued : ℤ := 0
  streak_days : ℤ := 0
  badges : List String := []
  last_activity : Timestamp
  created_at : Timestamp
  updated_at : Timestamp
deriving DecidableEq, Repr

/-- UserMetricsRepository.update_metrics (repositories.py): adds the given
amounts onto the stored counters and refreshes the activity timestamps. -/
def update_metrics (m : UserMetrics) (co2_prevented : ℚ := 0) (food_saved : ℚ := 0)
    (money_saved : ℚ := 0) (meals_added : ℤ := 0) (items_rescued_added : ℤ := 0)
    (now : Timestamp := 0) : UserMetrics :=
  { m with
      co2_emissions_prevented_kg := m.co2_emissions_prevented_kg + co2_prevented
      food_saved_lbs := m.food_saved_lbs + food_saved
      money_saved_usd := m.money_saved_usd + money_saved
      meals_created := m.meals_created + meals_added
      items_rescued := m.items_rescued + items_rescued_added
      last_activity := now
      updated_at := now }

/-- ConsumeItemPayload of main.py: quantity_delta is an unconstrained float,
reason is the used/discarded literal. -/
structure ConsumeItemPayload where
  quantity_delta : ℚ
  reason : ConsumeReason
deriving DecidableEq, Repr

/-- consume_inventory_item handler (main.py, lines 439-479), success path on
an owned existing item: the impact is computed BEFORE consumption via
calculate_food_waste_impact(item, payload.reason) - the source does not pass
payload.quantity_delta, so the estimate uses item.quantity - then the item is
consumed, and when the reason is used the owner metrics receive the estimate
plus one rescued item when the resulting status is consumed. The id-parsing
and ownership guards (400/404 paths) precede this transformation and are not
modelled. -/
def consume_inventory_item (item : InventoryItemDB) (metrics : UserMetrics)
    (payload : ConsumeItemPayload) (now : Timestamp) :
    InventoryItemDB × UserMetrics :=
  let impact := calculate_food_waste_impact item payload.reason
  let updated_item := consume_item item payload.quantity_delta payload.reason now
  let new_metrics :=
    if payload.reason = .used then
      update_metrics metrics impact.co2_prevented_kg impact.food_saved_lbs
        impact.money_saved_usd 0 (if updated_item.status = .consumed then 1 else 0) now
    else
      metrics
  (updated_item, new_metrics)

/-- Allergen literal of models.py. -/
inductive Allergen where
  | gluten | dairy | nuts | peanuts | soy | eggs | fish | shellfish | sesame
deriving DecidableEq, BEq, Repr

/-- Posting status literal of PostingDB (models.py). -/
inductive PostingStatus where
  | open | reserved | picked_up | expired | canceled
deriving DecidableEq, Repr

/-- GeoJSON point of models.py. coordinates.1 is list index 0 (longitude)
and coordinates.2 is list index 1 (latitude), matching the source comment
"[longitude, latitude]". -/
structure GeoLocation where
  type : String := "Point"
  coordinates : ℝ × ℝ

/-- PickupWindow of models.py. -/
structure PickupWindow where
  start : Timestamp
  stop : Timestamp

/-- PostingDB of models.py. -/
structure PostingDB where
  id : ObjectId
  owner_id : ObjectId
  title : String
  allergens : List Allergen := []
  picture_url : Option String := none
  pickup_window : PickupWindow
  location : GeoLocation
  approx_geohash5 : String
  status : PostingStatus := .open
  claimed_by : Option ObjectId := none
  claim_deadline : Option Timestamp := none
  expires_at : Timestamp
  created_at : Timestamp
  updated_at : Timestamp
  quantity_label : Option String := none
  pickup_location_hint : Option String := none
  impact_narrative : Option String := none
  tags : List String := []

/-- Coordinates API model of models.py. -/
structure Coordinates where
  latitude : ℝ
  longitude : ℝ

/-- Posting API model of models.py. The id and createdAt string renderings
are kept in their underlying representations. -/
structure Posting where
  id : ObjectId
  title : String
  quantityLabel : String
  pickupWindowLabel : Option String := none
  pickupLocationHint : String
  status : PostingStatus
  allergens : List Allergen
  socialProof : Option String := none
  reserverCount : Option ℤ := none
  distanceKm : Option ℝ := none
  coordinates : Option Coordinates := none
  createdAt : Timestamp
  impactNarrative : Option String := none
  tags : List String := []

/-- Python truthiness on Optional[str] (the `x or default` idiom): None and
the empty string both fall through to the default. -/
def py_or_str (o : Option String) (default : String) : String :=
  match o with
  | some s => if s = "" then default else s
  | none => default

/-- Degree-to-radian conversion (math.radians). -/
noncomputable def radians (deg : ℝ) : ℝ :=
  deg * (Real.pi / 180)

/-- haversine_distance (utils.py, lines 8-17): great circle distance in
kilometers between two latitude/longitude pairs given in degrees. -/
noncomputable def haversine_distance (lat1 lon1 lat2 lon2 : ℝ) : ℝ :=
  let rlat1 := radians lat1
  let rlon1 := radians lon1
  let rlat2 := radians lat2
  let rlon2 := radians lon2
  let dlat := rlat2 - rlat1
  let dlon := rlon2 - rlon1
  let a := Real.sin (dlat / 2) ^ 2 +
    Real.cos rlat1 * Real.cos rlat2 * Real.sin (dlon / 2) ^ 2
  let c := 2 * Real.arcsin (Real.sqrt a)
  c * 6371

/-- Python round(x, 1): rounding to one decimal place. The source rounds at
float precision with half-to-even ties; the embedding rounds the exact real
value, which agrees away from representation-dependent ties. -/
noncomputable def round1 (x : ℝ) : ℝ :=
  (round (10 * x) : ℤ) / 10

/-- format_pickup_window (utils.py): renders the window bounds joined by
" - ". The strftime clock-face formatting of each bound is abstracted to
an injective rendering of the timestamp. -/
def format_pickup_window (start stop : Timestamp) : String :=
  toString start ++ " - " ++ toString stop

/-- posting_db_to_api (utils.py, lines 25-72): distance is computed only
when both caller coordinates are present; exact coordinates are attached
only for the owner or accepted claimer; distanceKm reflects the Python
truthiness test `round(distance_km, 1) if distance_km else None`, under
which a distance of exactly zero yields None; picked_up is presented as
reserved; pickup_window is a required pydantic submodel, so its truthiness
test always succeeds. -/
noncomputable def posting_db_to_api (posting_db : PostingDB)
    (user_lat user_lng : Option ℝ) (is_owner is_claimer : Bool) : Posting :=
  let distance_km : Option ℝ :=
    match user_lat, user_lng with
    | some ulat, some ulng =>
        some (haversine_distance ulat ulng
          posting_db.location.coordinates.2 posting_db.location.coordinates.1)
    | _, _ => none
  let coordinates : Option Coordinates :=
    if is_owner || is_claimer then
      some { latitude := posting_db.location.coordinates.2
             longitude := posting_db.location.coordinates.1 }
    else
      none
  let pickup_window_label : Option String :=
    some (format_pickup_window posting_db.pickup_window.start posting_db.pickup_window.stop)
  { id := posting_db.id
    title := posting_db.title
    quantityLabel := py_or_str posting_db.quantity_label "1 item"
    pickupWindowLabel := pickup_window_label
    pickupLocationHint := py_or_str posting_db.pickup_location_hint ""
    status := if posting_db.status ≠ .picked_up then posting_db.status else .reserved
    allergens := posting_db.allergens
    socialProof := none
    reserverCount := none
    distanceKm :=
      match distance_km with
      | some d => if d = 0 then none else some (round1 d)
      | none => none
    coordinates := coordinates
    createdAt := posting_db.created_at
    impactNarrative := posting_db.impact_narrative
    tags := posting_db.tags }

/-- get_postings handler (main.py, lines 197-226), the conversion loop over
the fetched postings: each posting is translated with is_owner set when the
posting owner is the caller account and is_claimer set when claimed_by
equals the caller account (None compares unequal to any id). The choice of
the fetched list (geospatial query when coordinates are given, empty list
otherwise) is the collaborating store's concern and is taken as input. -/
noncomputable def get_postings (account_id : ObjectId) (postings_db : List PostingDB)
    (lat lng : Option ℝ) : List Posting :=
  postings_db.map (fun posting_db =>
    posting_db_to_api posting_db lat lng
      (decide (posting_db.owner_id = account_id))
      (decide (posting_db.claimed_by = some account_id)))

/-- get_impact_narrative (utils.py): builds the candidate messages, appends
allergen-specific ones, and joins the first two. -/
def get_impact_narrative (allergens : List Allergen) (quantity : String := "1 item") : String :=
  let base_messages : List String :=
    ["Redirects " ++ quantity ++ " from waste",
     "Saves ~2.5 lbs CO₂ equivalent",
     "Helps a neighbor nearby"]
  let with_dairy :=
    if allergens.contains .dairy then base_messages ++ ["Prevents dairy waste"]
    else base_messages
  let with_gluten :=
    if allergens.contains .gluten then with_dairy ++ ["Reduces food packaging waste"]
    else with_dairy
  String.intercalate " • " (with_gluten.take 2)

/-- PostingRepository.count_open_by_owner (repositories.py, lines 127-131):
count of stored postings with the given owner and status open. -/
def count_open_by_owner (postings : List PostingDB) (owner_id : ObjectId) : ℕ :=
  (postings.filter (fun p =>
    decide (p.owner_id = owner_id) && decide (p.status = .open))).length

/-- Geohash encoding of the external geohash library, used only to fill the
display-only approx_geohash5 field; its value is irrelevant to every
verified property and is abstracted. -/
def geohash_encode (lat lng : ℝ) (precision : ℕ) : String :=
  ""

/-- CreatePostingPayload of main.py. -/
structure CreatePostingPayload where
  title : String
  quantityLabel : String
  pickupWindowLabel : Option String := none
  pickupLocationHint : Option String := none
  allergens : List Allergen
  impactNarrative : Option String := none
  tags : Option (List String) := none

/-- create_posting handler (main.py, lines 229-269) composed with
PostingRepository.create_posting: the open-postings count of the caller is
checked immediately before insert and a count of 3 or more is rejected with
HTTP 400 and nothing is inserted; otherwise the posting is built with the
default pickup window now+1h to now+3h, expiry at the window end, status
open, and the repository fills the geohash and appends the document to the
store. -/
def create_posting (postings : List PostingDB) (account_id : ObjectId)
    (payload : CreatePostingPayload) (lat lng : ℝ) (now : Timestamp)
    (new_id : ObjectId) : Except (ℕ × String) (List PostingDB × PostingDB) :=
  let open_count := count_open_by_owner postings account_id
  if open_count ≥ 3 then
    .error (400, "Maximum 3 open postings allowed")
  else
    let pickup_start := now + 3600
    let pickup_end := now + 3 * 3600
    let posting_db : PostingDB :=
      { id := new_id
        owner_id := account_id
        title := payload.title
        allergens := payload.allergens
        pickup_window := { start := pickup_start, stop := pickup_end }
        location := { coordinates := (lng, lat) }
        approx_geohash5 := geohash_encode lat lng 5
        status := .open
        expires_at := pickup_end
        created_at := now
        updated_at := now
        quantity_label := some payload.quantityLabel
        pickup_location_hint := some (py_or_str payload.pickupLocationHint "")
        impact_narrative := some (py_or_str payload.impactNarrative
          (get_impact_narrative payload.allergens payload.quantityLabel))
        tags := payload.tags.getD [] }
    .ok (postings ++ [posting_db], posting_db)

/-- HTTPException raised by the auth layer: status code and detail text. -/
structure HTTPError where
  status : ℕ
  detail : String
deriving DecidableEq, Repr

/-- JWKS key document: the kid and alg entries the source reads; the actual
RSA key material is identified by the kid it belongs to. -/
structure JwkKey where
  kid : Option String := none
  alg : Option String := none
deriving DecidableEq, Repr

/-- Bearer token as the jose library sees it: the unverified header fields,
the registered claims, the profile claims, and the key id of the RSA key
whose private half produced the signature. malformed models a token whose
header cannot be parsed (jose raises JWTError). -/
structure JoseToken where
  malformed : Bool := false
  kid : Option String := none
  sub : String
  aud : String
  iss : String
  exp : Timestamp
  scope : Option String := none
  permissions : Option (List String) := none
  email : Option String := none
  name : Option String := none
  sig_kid : String
deriving DecidableEq, Repr

/-- Auth0Settings of auth.py (domain, audience, issuer as configured). -/
structure Auth0Settings where
  domain : String
  audience : String
  issuer : String
deriving DecidableEq, Repr

/-- Auth0User of auth.py. -/
structure Auth0User where
  sub : String
  scope : Option String := none
  permissions : Option (List String) := none
  email : Option String := none
  name : Option String := none
deriving DecidableEq, Repr

/-- Mutable verifier cache of Auth0Verifier: the most recently fetched key
set and its fetch timestamp. -/
structure VerifierState where
  jwks : Option (List JwkKey) := none
  jwks_loaded_at : Timestamp := 0
deriving DecidableEq, Repr

/-- Auth0Verifier._load_jwks (auth.py, lines 82-91): returns the cached key
set when not forced, present and fetched less than one hour ago; otherwise
fetches the set currently served by the provider endpoint and overwrites the
cache with the fetch timestamp. -/
def load_jwks (st : VerifierState) (provider : List JwkKey) (force : Bool)
    (now : Timestamp) : List JwkKey × VerifierState :=
  match st.jwks with
  | some cached =>
      if force = false ∧ now - st.jwks_loaded_at < 3600 then
        (cached, st)
      else
        (provider, { jwks := some provider, jwks_loaded_at := now })
  | none =>
      (provider, { jwks := some provider, jwks_loaded_at := now })

/-- Key id lookup over a key list (the for-loop of _get_signing_key):
first key whose kid entry equals the token kid. -/
def find_key (keys : List JwkKey) (kid : String) : Option JwkKey :=
  keys.find? (fun key => key.kid == some kid)

/-- Auth0Verifier._get_signing_key (auth.py, lines 93-116): 401 on a
malformed header; 401 on an absent or empty kid (Python truthiness); lookup
in the key set returned by the unforced load; on a miss, one forced refresh
and a second lookup; 401 when still missing. -/
def get_signing_key (st : VerifierState) (provider : List JwkKey)
    (token : JoseToken) (now : Timestamp) :
    Except HTTPError (JwkKey × VerifierState) :=
  if token.malformed then
    .error { status := 401, detail := "Invalid token header" }
  else
    match token.kid with
    | none => .error { status := 401, detail := "Missing token kid" }
    | some kid =>
        if kid = "" then
          .error { status := 401, detail := "Missing token kid" }
        else
          match find_key (load_jwks st provider false now).1 kid with
          | some key => .ok (key, (load_jwks st provider false now).2)
          | none =>
              match find_key
                  (load_jwks (load_jwks st provider false now).2 provider true now).1 kid with
              | some key =>
                  .ok (key, (load_jwks (load_jwks st provider false now).2 provider true now).2)
              | none =>
                  .error { status := 401, detail := "Unable to find a matching signing key" }

/-- Modelled from the spec: jwt.decode of the external jose library, which
is not part of this repository. Spec section 4.1: "verify the token's
signature, audience, and issuer using the matched key; decode claims",
failing when the signature is invalid, the audience or issuer mismatch, or
the token is expired. The signature check under the matched key succeeds
exactly when that key is the one that signed the token. -/
def jwt_decode (token : JoseToken) (key : JwkKey) (audience issuer : String)
    (now : Timestamp) : Except String JoseToken :=
  if key.kid ≠ some token.sig_kid then
    .error "signature verification failed"
  else if token.aud ≠ audience then
    .error "invalid audience"
  else if token.iss ≠ issuer then
    .error "invalid issuer"
  else if token.exp ≤ now then
    .error "signature has expired"
  else
    .ok token

/-- Auth0Verifier.verify (auth.py, lines 118-141): obtain the signing key,
then decode with the configured audience and issuer; any JWTError from the
decode is translated to a 401 with detail "Invalid or expired token". -/
def verify (settings : Auth0Settings) (st : VerifierState) (provider : List JwkKey)
    (token : JoseToken) (now : Timestamp) :
    Except HTTPError (Auth0User × VerifierState) :=
  match get_signing_key st provider token now with
  | .error e => .error e
  | .ok (key, st1) =>
      match jwt_decode token key settings.audience settings.issuer now with
      | .error _ => .error { status := 401, detail := "Invalid or expired token" }
      | .ok payload =>
          .ok ({ sub := payload.sub
                 scope := payload.scope
                 permissions := payload.permissions
                 email := payload.email
                 name := payload.name }, st1)

/-- Concrete inventory item fixture: 10 g of rice, untouched. -/
def sample_item : InventoryItemDB :=
  { id := 1
    owner_id := 7
    name := "Rice"
    quantity := 10
    base_unit := .g
    input_date := 0
    est_expiry_date := 100
    remaining_quantity := 10
    created_at := 0
    updated_at := 0 }

/-- Concrete fully consumed item fixture: status consumed, used_at set. -/
def consumed_item : InventoryItemDB :=
  { id := 2
    owner_id := 7
    name := "Milk"
    quantity := 0
    base_unit := .kg
    input_date := 0
    est_expiry_date := 50
    remaining_quantity := 0
    status := .consumed
    used_at := some 5
    created_at := 0
    updated_at := 5 }

/-- Concrete fresh metrics fixture, all counters zero. -/
def sample_metrics : UserMetrics :=
  { id := 3
    owner_id := 7
    last_activity := 0
    created_at := 0
    updated_at := 0 }

/-- Concrete open posting fixture owned by account 7. -/
def open_posting (pid : ObjectId) : PostingDB :=
  { id := pid
    owner_id := 7
    title := "Bread"
    pickup_window := { start := 0, stop := 100 }
    location := { coordinates := ((0 : ℝ), (0 : ℝ)) }
    approx_geohash5 := "s0000"
    expires_at := 100
    created_at := 0
    updated_at := 0 }

/-- Concrete posting-creation payload fixture. -/
def sample_payload : CreatePostingPayload :=
  { title := "Soup"
    quantityLabel := "2 cups"
    allergens := [] }

/-- Concrete posting fixture for the listing translation, owned by 7. -/
def sample_posting : PostingDB :=
  { id := 11
    owner_id := 7
    title := "Apples"
    pickup_window := { start := 0, stop := 100 }
    location := { coordinates := ((-75 : ℝ), (40 : ℝ)) }
    approx_geohash5 := "dr4ur"
    expires_at := 100
    created_at := 0
    updated_at := 0 }

/-- Translation of sample_posting exactly as get_postings produces it for
caller account 7. -/
noncomputable def sample_posting_api : Posting :=
  posting_db_to_api sample_posting none none
    (decide (sample_posting.owner_id = 7)) (decide (sample_posting.claimed_by = some 7))

/-- Concrete Auth0 settings fixture. -/
def sample_settings : Auth0Settings :=
  { domain := "leftys.auth0.com"
    audience := "leftys-api"
    issuer := "https://leftys.auth0.com/" }

/-- Concrete JWKS key fixture with kid k1. -/
def sample_key : JwkKey :=
  { kid := some "k1", alg := some "RS256" }

/-- Verifier cache fixture with nothing cached. -/
def empty_verifier_state : VerifierState := {}

/-- Token fixture signed with a key id k2 absent from every key set. -/
def unknown_kid_token : JoseToken :=
  { kid := some "k2"
    sub := "auth0|alice"
    aud := "leftys-api"
    iss := "https://leftys.auth0.com/"
    exp := 1000
    sig_kid := "k2" }

/-- Token fixture that expired at time 100. -/
def expired_token : JoseToken :=
  { kid := some "k1"
    sub := "auth0|alice"
    aud := "leftys-api"
    iss := "https://leftys.auth0.com/"
    exp := 100
    sig_kid := "k1" }

/-- Token fixture whose audience does not match the configured audience. -/
def wrong_audience_token : JoseToken :=
  { kid := some "k1"
    sub := "auth0|alice"
    aud := "other-api"
    iss := "https://leftys.auth0.com/"
    exp := 10000
    sig_kid := "k1" }

theorem consume_item_remaining_eq (item : InventoryItemDB) (delta : ℚ)
    (reason : ConsumeReason) (now : Timestamp) :
    (consume_item item delta reason now).remaining_quantity
      = max 0 (item.remaining_quantity - delta) := by
  unfold consume_item
  cases reason <;> dsimp only <;> split <;> rfl

theorem consume_item_quantity_eq (item : InventoryItemDB) (delta : ℚ)
    (reason : ConsumeReason) (now : Timestamp) :
    (consume_item item delta reason now).quantity
      = max 0 (item.remaining_quantity - delta) := by
  unfold consume_item
  cases reason <;> dsimp only <;> split <;> rfl

theorem consume_item_status_cases (item : InventoryItemDB) (delta : ℚ)
    (reason : ConsumeReason) (now : Timestamp) :
    (consume_item item delta reason now).status = item.status ∨
      (consume_item item delta reason now).status = .consumed ∨
      (consume_item item delta reason now).status = .discarded := by
  unfold consume_item
  cases reason <;> dsimp only <;> split <;> simp

/-- C9: every consume on an existing item overwrites the stored quantity to
the newly computed remaining quantity, so quantity equals
remaining_quantity afterwards and the original total is not preserved (both
fields carry max 0 (remaining - delta)). -/
theorem c9_consume_overwrites_quantity (item : InventoryItemDB) (delta : ℚ)
    (reason : ConsumeReason) (now : Timestamp) :
    (consume_item item delta reason now).quantity
        = (consume_item item delta reason now).remaining_quantity ∧
      (consume_item item delta reason now).quantity
        = max 0 (item.remaining_quantity - delta) := by
  rw [consume_item_quantity_eq, consume_item_remaining_eq]
  exact ⟨rfl, rfl⟩

/-- C2: starting from an item whose remaining quantity lies in [0, quantity],
any sequence of consume operations leaves the remaining quantity in
[0, quantity]; in particular it is clamped at zero and never negative. -/
theorem c2_remaining_in_range (item : InventoryItemDB)
    (ops : List (ℚ × ConsumeReason × Timestamp))
    (h0 : 0 ≤ item.remaining_quantity)
    (h1 : item.remaining_quantity ≤ item.quantity) :
    0 ≤ (consume_seq item ops).remaining_quantity ∧
      (consume_seq item ops).remaining_quantity ≤ (consume_seq item ops).quantity := by
  induction ops generalizing item with
  | nil => exact ⟨h0, h1⟩
  | cons op ops ih =>
      have hstep : consume_seq item (op :: ops)
          = consume_seq (consume_item item op.1 op.2.1 op.2.2) ops := rfl
      rw [hstep]
      refine ih _ ?_ ?_
      · rw [consume_item_remaining_eq]
        exact le_max_left _ _
      · rw [consume_item_remaining_eq, consume_item_quantity_eq]

/-- Closed witness for c2_remaining_in_range on a concrete item and a
concrete two-step consume sequence. -/
theorem c2_remaining_in_range_witness :
    (0 : ℚ) ≤ sample_item.remaining_quantity ∧
      sample_item.remaining_quantity ≤ sample_item.quantity ∧
      (0 ≤ (consume_seq sample_item [(4, .used, 1), (7, .used, 2)]).remaining_quantity ∧
        (consume_seq sample_item [(4, .used, 1), (7, .used, 2)]).remaining_quantity
          ≤ (consume_seq sample_item [(4, .used, 1), (7, .used, 2)]).quantity) :=
  ⟨by decide, by decide,
    c2_remaining_in_range sample_item [(4, .used, 1), (7, .used, 2)] (by decide) (by decide)⟩

/-- C3: a consume with quantity_delta at least the remaining quantity drives
the status to consumed (reason used) or discarded (reason discarded), and on
an item with no terminal timestamps it sets exactly the matching one of
used_at and discarded_at. -/
theorem c3_full_consume_terminal (item : InventoryItemDB) (delta : ℚ)
    (reason : ConsumeReason) (now : Timestamp)
    (hd : item.remaining_quantity ≤ delta)
    (hu : item.used_at = none) (hx : item.discarded_at = none) :
    (reason = .used →
        (consume_item item delta reason now).status = .consumed ∧
        (consume_item item delta reason now).used_at = some now ∧
        (consume_item item delta reason now).discarded_at = none) ∧
      (reason = .discarded →
        (consume_item item delta reason now).status = .discarded ∧
        (consume_item item delta reason now).discarded_at = some now ∧
        (consume_item item delta reason now).used_at = none) := by
  have hmax : max 0 (item.remaining_quantity - delta) = 0 :=
    max_eq_left (sub_nonpos.mpr hd)
  cases reason <;>
    simp [consume_item, hmax, hu, hx]

/-- Closed witness for c3_full_consume_terminal: consuming the full 10 g of
the sample item with reason used. -/
theorem c3_full_consume_terminal_witness :
    sample_item.remaining_quantity ≤ (10 : ℚ) ∧
      sample_item.used_at = none ∧
      sample_item.discarded_at = none ∧
      ((ConsumeReason.used = .used →
          (consume_item sample_item 10 .used 5).status = .consumed ∧
          (consume_item sample_item 10 .used 5).used_at = some 5 ∧
          (consume_item sample_item 10 .used 5).discarded_at = none) ∧
        (ConsumeReason.used = .discarded →
          (consume_item sample_item 10 .used 5).status = .discarded ∧
          (consume_item sample_item 10 .used 5).discarded_at = some 5 ∧
          (consume_item sample_item 10 .used 5).used_at = none)) :=
  ⟨by decide, rfl, rfl,
    c3_full_consume_terminal sample_item 10 .used 5 (by decide) rfl rfl⟩

/-- C4 counterexample: the claim that terminal status transitions are
one-way fails on the code. Consuming an already consumed item (remaining 0,
used_at set) with reason discarded changes its status to discarded and sets
the other terminal timestamp, because consume_item never inspects the
current status. -/
theorem c4_one_way_counterexample :
    consumed_item.status = .consumed ∧
      consumed_item.used_at = some 5 ∧
      (consume_item consumed_item 1 .discarded 7).status ≠ .consumed ∧
      (consume_item consumed_item 1 .discarded 7).status = .discarded ∧
      (consume_item consumed_item 1 .discarded 7).discarded_at = some 7 := by
  norm_num [consume_item, consumed_item]
  decide

/-- C4 (amended): once an item is consumed or discarded, no consume
operation returns it to a non-terminal status - the status stays in
the set of consumed and discarded - but a subsequent consume with the other
reason can flip between the two terminal statuses and set the other
terminal timestamp. -/
theorem c4_terminal_status_absorbing (item : InventoryItemDB) (delta : ℚ)
    (reason : ConsumeReason) (now : Timestamp)
    (h : item.status = .consumed ∨ item.status = .discarded) :
    (consume_item item delta reason now).status = .consumed ∨
      (consume_item item delta reason now).status = .discarded := by
  rcases consume_item_status_cases item delta reason now with hs | hs | hs
  · rw [hs]; exact h
  · exact Or.inl hs
  · exact Or.inr hs

/-- Closed witness for c4_terminal_status_absorbing on the consumed fixture. -/
theorem c4_terminal_status_absorbing_witness :
    (consumed_item.status = .consumed ∨ consumed_item.status = .discarded) ∧
      ((consume_item consumed_item 1 .discarded 7).status = .consumed ∨
        (consume_item consumed_item 1 .discarded 7).status = .discarded) :=
  ⟨Or.inl rfl, c4_terminal_status_absorbing consumed_item 1 .discarded 7 (Or.inl rfl)⟩

/-- C7 counterexample: the claim that remaining_quantity never increases
under a consume request with any quantity_delta fails, because the payload
does not constrain the sign of quantity_delta: a negative delta increases
the remaining quantity. -/
theorem c7_monotone_counterexample :
    sample_item.remaining_quantity = 10 ∧
      (consume_item sample_item (-2) .used 1).remaining_quantity = 12 ∧
      ¬ (consume_item sample_item (-2) .used 1).remaining_quantity
          ≤ sample_item.remaining_quantity := by
  norm_num [consume_item, sample_item]

/-- C7 (amended): for an item with nonnegative remaining quantity,
remaining_quantity is non-increasing under any consume with nonnegative
quantity_delta; a negative quantity_delta (accepted by the payload) can
increase it, and the direct set-quantity operation can reset it. -/
theorem c7_remaining_nonincreasing (item : InventoryItemDB) (delta : ℚ)
    (reason : ConsumeReason) (now : Timestamp)
    (hr : 0 ≤ item.remaining_quantity) (hdelta : 0 ≤ delta) :
    (consume_item item delta reason now).remaining_quantity
      ≤ item.remaining_quantity := by
  rw [consume_item_remaining_eq]
  exact max_le hr (by linarith)

/-- Closed witness for c7_remaining_nonincreasing on the sample item. -/
theorem c7_remaining_nonincreasing_witness :
    (0 : ℚ) ≤ sample_item.remaining_quantity ∧ (0 : ℚ) ≤ (4 : ℚ) ∧
      (consume_item sample_item 4 .used 1).remaining_quantity
        ≤ sample_item.remaining_quantity :=
  ⟨by decide, by decide,
    c7_remaining_nonincreasing sample_item 4 .used 1 (by decide) (by decide)⟩

/-- C1, behavior of the code at the failing input: consuming 4 of 10 g with
reason used leaves remaining 6 and status active as claimed, but the handler
calls calculate_food_waste_impact without the quantity_delta argument, so
the owner metrics grow by the weight of the full stored quantity
(10 x 0.00220462 lbs) instead of the consumed delta (4 x 0.00220462 lbs),
and the CO2 counter grows by that larger weight times 0.453592 times 3.3. -/
theorem c1_impact_uses_full_quantity :
    (consume_inventory_item sample_item sample_metrics ⟨4, .used⟩ 1).1.remaining_quantity = 6 ∧
      (consume_inventory_item sample_item sample_metrics ⟨4, .used⟩ 1).1.status = .active ∧
      (consume_inventory_item sample_item sample_metrics ⟨4, .used⟩ 1).2.food_saved_lbs
        = 10 * (220462 / 100000000) ∧
      (consume_inventory_item sample_item sample_metrics ⟨4, .used⟩ 1).2.food_saved_lbs
        ≠ 4 * (220462 / 100000000) ∧
      (consume_inventory_item sample_item sample_metrics ⟨4, .used⟩ 1).2.co2_emissions_prevented_kg
        = 10 * (220462 / 100000000) * (453592 / 1000000) * (33 / 10) := by
  norm_num [consume_inventory_item, consume_item, calculate_food_waste_impact,
    update_metrics, sample_item, sample_metrics]

/-- C6: a posting-creation request from an owner who already holds at least
3 open postings is rejected with HTTP 400 and no posting is inserted (the
handler returns before touching the store). -/
theorem c6_open_posting_cap (postings : List PostingDB) (account_id : ObjectId)
    (payload : CreatePostingPayload) (lat lng : ℝ) (now : Timestamp)
    (new_id : ObjectId)
    (h : 3 ≤ count_open_by_owner postings account_id) :
    create_posting postings account_id payload lat lng now new_id
      = .error (400, "Maximum 3 open postings allowed") := by
  unfold create_posting
  rw [if_pos h]

/-- Closed witness for c6_open_posting_cap: owner 7 holds exactly 3 open
postings and the 4th creation attempt is rejected. -/
theorem c6_open_posting_cap_witness :
    3 ≤ count_open_by_owner [open_posting 1, open_posting 2, open_posting 3] 7 ∧
      create_posting [open_posting 1, open_posting 2, open_posting 3] 7
          sample_payload 40 (-75) 0 99
        = .error (400, "Maximum 3 open postings allowed") :=
  ⟨by decide,
    c6_open_posting_cap [open_posting 1, open_posting 2, open_posting 3] 7
      sample_payload 40 (-75) 0 99 (by decide)⟩

/-- C5: for every posting returned by the postings listing, the exact
coordinates field is present in the response exactly when the requesting
account is the posting owner or its current claimant. -/
theorem c5_coordinates_iff_owner_or_claimer (account_id : ObjectId)
    (postings_db : List PostingDB) (lat lng : Option ℝ) (i : ℕ)
    (p : PostingDB) (q : Posting)
    (hp : postings_db.get? i = some p)
    (hq : (get_postings account_id postings_db lat lng).get? i = some q) :
    q.coordinates.isSome = true ↔
      (p.owner_id = account_id ∨ p.claimed_by = some account_id) := by
  unfold get_postings at hq
  rw [List.get?_map, hp, Option.map_some'] at hq
  have hq' : q = posting_db_to_api p lat lng
      (decide (p.owner_id = account_id)) (decide (p.claimed_by = some account_id)) :=
    (Option.some.injEq _ _ ▸ hq).symm
  subst hq'
  have hcoord : (posting_db_to_api p lat lng
      (decide (p.owner_id = account_id)) (decide (p.claimed_by = some account_id))).coordinates
      = if (decide (p.owner_id = account_id) || decide (p.claimed_by = some account_id)) then
          some { latitude := p.location.coordinates.2
                 longitude := p.location.coordinates.1 }
        else none := rfl
  rw [hcoord]
  by_cases h : p.owner_id = account_id ∨ p.claimed_by = some account_id
  · simp [h]
  · simp [h]

/-- Closed witness for c5_coordinates_iff_owner_or_claimer: account 7 lists
its own posting and receives the exact coordinates. -/
theorem c5_coordinates_iff_owner_or_claimer_witness :
    ([sample_posting].get? 0 = some sample_posting) ∧
      ((get_postings 7 [sample_posting] none none).get? 0 = some sample_posting_api) ∧
      (sample_posting_api.coordinates.isSome = true ↔
        (sample_posting.owner_id = 7 ∨ sample_posting.claimed_by = some 7)) :=
  ⟨rfl, rfl,
    c5_coordinates_iff_owner_or_claimer 7 [sample_posting] none none 0
      sample_posting sample_posting_api rfl rfl⟩

/-- C10: when caller coordinates are supplied, the returned distanceKm is
the haversine distance rounded to one decimal place, except that a distance
of exactly zero is returned as None instead of 0.0 (the Python truthiness
test); moreover a caller standing exactly at the posting location computes
haversine distance zero. -/
theorem c10_distance_rounding (p : PostingDB) (ulat ulng : ℝ) (o c : Bool) :
    ((posting_db_to_api p (some ulat) (some ulng) o c).distanceKm
        = if haversine_distance ulat ulng p.location.coordinates.2 p.location.coordinates.1 = 0
          then none
          else some (round1 (haversine_distance ulat ulng
            p.location.coordinates.2 p.location.coordinates.1))) ∧
      (∀ lat lng : ℝ, haversine_distance lat lng lat lng = 0) := by
  constructor
  · rfl
  · intro lat lng
    simp [haversine_distance, radians]

theorem load_jwks_first_eq (st : VerifierState) (provider : List JwkKey)
    (force : Bool) (now : Timestamp) :
    (load_jwks st provider force now).1 = provider ∨
      ∃ cached, st.jwks = some cached ∧ (load_jwks st provider force now).1 = cached := by
  unfold load_jwks
  cases h : st.jwks with
  | none => exact Or.inl rfl
  | some cached =>
      dsimp only
      split
      · exact Or.inr ⟨cached, rfl, rfl⟩
      · exact Or.inl rfl

theorem load_jwks_forced (st : VerifierState) (provider : List JwkKey)
    (now : Timestamp) :
    (load_jwks st provider true now).1 = provider := by
  unfold load_jwks
  cases h : st.jwks with
  | none => rfl
  | some cached =>
      dsimp only
      split
      · next hcond => exact absurd hcond.1 (by simp)
      · rfl

theorem jwt_decode_expired (token : JoseToken) (key : JwkKey)
    (audience issuer : String) (now : Timestamp) (h : token.exp ≤ now) :
    ∃ msg, jwt_decode token key audience issuer now = .error msg := by
  unfold jwt_decode
  split_ifs <;> exact ⟨_, rfl⟩

theorem jwt_decode_mismatch (token : JoseToken) (key : JwkKey)
    (audience issuer : String) (now : Timestamp)
    (h : token.aud ≠ audience ∨ token.iss ≠ issuer) :
    ∃ msg, jwt_decode token key audience issuer now = .error msg := by
  unfold jwt_decode
  split_ifs with h1 h2 h3 h4
  · exact ⟨_, rfl⟩
  · exact ⟨_, rfl⟩
  · exact ⟨_, rfl⟩
  · exact ⟨_, rfl⟩
  · rcases h with h | h
    · exact absurd h h2
    · exact absurd h h3

theorem get_signing_key_error_status (st : VerifierState) (provider : List JwkKey)
    (token : JoseToken) (now : Timestamp) (e : HTTPError)
    (h : get_signing_key st provider token now = .error e) : e.status = 401 := by
  unfold get_signing_key at h
  split at h
  · cases h; rfl
  · split at h
    · cases h; rfl
    · split at h
      · cases h; rfl
      · split at h
        · cases h
        · split at h
          · cases h
          · cases h; rfl

theorem verify_error_status (settings : Auth0Settings) (st : VerifierState)
    (provider : List JwkKey) (token : JoseToken) (now : Timestamp) (e : HTTPError)
    (h : verify settings st provider token now = .error e) : e.status = 401 := by
  unfold verify at h
  split at h
  · next herr => cases h; exact get_signing_key_error_status _ _ _ _ _ herr
  · split at h
    · cases h; rfl
    · cases h

/-- C8: token verification fails with a 401 authentication error for a token
whose key id is absent both from the cached signing-key set and from the
provider key set obtained by the one forced refresh; for every expired
token; and for every token whose audience or issuer does not match the
configured values. -/
theorem c8_verify_rejections :
    (∀ (settings : Auth0Settings) (st : VerifierState) (provider : List JwkKey)
        (token : JoseToken) (now : Timestamp) (kid : String),
      token.malformed = false → token.kid = some kid → kid ≠ "" →
      find_key provider kid = none →
      (∀ cached, st.jwks = some cached → find_key cached kid = none) →
      verify settings st provider token now
        = .error { status := 401, detail := "Unable to find a matching signing key" }) ∧
    (∀ (settings : Auth0Settings) (st : VerifierState) (provider : List JwkKey)
        (token : JoseToken) (now : Timestamp),
      token.exp ≤ now →
      ∃ e, verify settings st provider token now = .error e ∧ e.status = 401) ∧
    (∀ (settings : Auth0Settings) (st : VerifierState) (provider : List JwkKey)
        (token : JoseToken) (now : Timestamp),
      token.aud ≠ settings.audience ∨ token.iss ≠ settings.issuer →
      ∃ e, verify settings st provider token now = .error e ∧ e.status = 401) := by
  refine ⟨?_, ?_, ?_⟩
  · intro settings st provider token now kid hm hk hne hprov hcache
    have h1 : find_key (load_jwks st provider false now).1 kid = none := by
      rcases load_jwks_first_eq st provider false now with h | ⟨cached, hc, h⟩
      · rw [h]; exact hprov
      · rw [h]; exact hcache cached hc
    have h2 : find_key
        (load_jwks (load_jwks st provider false now).2 provider true now).1 kid = none := by
      rw [load_jwks_forced]; exact hprov
    have hgsk : get_signing_key st provider token now
        = .error { status := 401, detail := "Unable to find a matching signing key" } := by
      simp [get_signing_key, hm, hk, hne, h1, h2]
    unfold verify
    rw [hgsk]
  · intro settings st provider token now hexp
    cases hk : get_signing_key st provider token now with
    | error e =>
        refine ⟨e, ?_, get_signing_key_error_status _ _ _ _ _ hk⟩
        unfold verify
        rw [hk]
    | ok pair =>
        obtain ⟨key, st1⟩ := pair
        obtain ⟨msg, hmsg⟩ :=
          jwt_decode_expired token key settings.audience settings.issuer now hexp
        refine ⟨{ status := 401, detail := "Invalid or expired token" }, ?_, rfl⟩
        unfold verify
        rw [hk]
        dsimp only
        rw [hmsg]
  · intro settings st provider token now hmis
    cases hk : get_signing_key st provider token now with
    | error e =>
        refine ⟨e, ?_, get_signing_key_error_status _ _ _ _ _ hk⟩
        unfold verify
        rw [hk]
    | ok pair =>
        obtain ⟨key, st1⟩ := pair
        obtain ⟨msg, hmsg⟩ :=
          jwt_decode_mismatch token key settings.audience settings.issuer now hmis
        refine ⟨{ status := 401, detail := "Invalid or expired token" }, ?_, rfl⟩
        unfold verify
        rw [hk]
        dsimp only
        rw [hmsg]

/-- Closed witness for c8_verify_rejections on concrete tokens: an unknown
key id k2 against a provider serving only k1 and an empty cache, a token
expired at 100 checked at 200, and a token with a wrong audience. -/
theorem c8_verify_rejections_witness :
    (unknown_kid_token.malformed = false ∧
      unknown_kid_token.kid = some "k2" ∧
      find_key [sample_key] "k2" = none ∧
      verify sample_settings empty_verifier_state [sample_key] unknown_kid_token 200
        = .error { status := 401, detail := "Unable to find a matching signing key" }) ∧
    (expired_token.exp ≤ 200 ∧
      ∃ e, verify sample_settings empty_verifier_state [sample_key] expired_token 200
          = .error e ∧ e.status = 401) ∧
    ((wrong_audience_token.aud ≠ sample_settings.audience ∨
        wrong_audience_token.iss ≠ sample_settings.issuer) ∧
      ∃ e, verify sample_settings empty_verifier_state [sample_key] wrong_audience_token 200
          = .error e ∧ e.status = 401) :=
  ⟨⟨rfl, rfl, by decide,
    c8_verify_rejections.1 sample_settings empty_verifier_state [sample_key]
      unknown_kid_token 200 "k2" rfl rfl (by decide) (by decide)
      (fun cached hc => nomatch hc)⟩,
   ⟨by decide,
    c8_verify_rejections.2.1 sample_settings empty_verifier_state [sample_key]
      expired_token 200 (by decide)⟩,
   ⟨Or.inl (by decide),
    c8_verify_rejections.2.2 sample_settings empty_verifier_state [sample_key]
      wrong_audience_token 200 (Or.inl (by decide))⟩⟩
